import Mathlib

namespace MenuGuard

/-!
Shallow embedding of the Menu Guard application (DIgCHeai/menuguard-app):
the serverless AI gateway (analyze / summarize / alternative / chat / places
dispatch), the Supabase client singleton and data-access service, and the
client-side analyze pre-check.  External services (the generative-AI model,
the Places HTTP API, the Supabase database) are modelled as oracles passed
as explicit function arguments; JSON values exchanged with the database are
modelled by an inductive `Json` type.
-/

/-- JSON values, as stored in the `result` JSONB column and exchanged by the
gateway.  Numbers are modelled as integers; no claim depends on numeric
fields. -/
inductive Json where
  | str (s : String)
  | num (n : Int)
  | jbool (b : Bool)
  | null
  | arr (elems : List Json)
  | obj (fields : List (String × Json))

/-- Property lookup `item.k` on a JSON value: defined (first match) on
objects, absent on every other shape (a JS array has none of the checked
string keys, so `none` is faithful for the shapes the guard inspects). -/
def Json.getField : Json → String → Option Json
  | .obj fs, k => fs.lookup k
  | _, _ => none

/-- The closed safety classification of `SafetyLevel` in types.ts.  The
third level is the string "unsafe" in the source; `danger` names it here
because the source spelling is a reserved word in Lean. -/
inductive SafetyLevel where
  | safe
  | caution
  | danger
deriving DecidableEq, Repr

/-- String value of a safety level, matching the TS enum values. -/
def SafetyLevel.toStr : SafetyLevel → String
  | .safe => "safe"
  | .caution => "caution"
  | .danger => "unsafe"

/-- Membership test `Object.values(SafetyLevel).includes(s)` from
isAnalysisResultArray. -/
def isSafetyLevelStr (s : String) : Bool :=
  s == "safe" || s == "caution" || s == "unsafe"

/-- Inverse of `SafetyLevel.toStr` on the enum's values. -/
def safetyLevelOfStr (s : String) : SafetyLevel :=
  if s == "safe" then .safe
  else if s == "caution" then .caution
  else .danger

/-- AnalysisResult from types.ts. -/
structure AnalysisResult where
  itemName : String
  safetyLevel : SafetyLevel
  reasoning : String
  identifiedAllergens : List String
deriving DecidableEq, Repr

/-- The per-item body of the runtime type guard in services/utils.ts:
`typeof item === 'object' && item !== null` (objects and arrays pass), plus
the four keyed field checks. -/
def isValidAnalysisItem (j : Json) : Bool :=
  (match j with | .obj _ => true | .arr _ => true | _ => false) &&
  (match j.getField "itemName" with | some (.str _) => true | _ => false) &&
  (match j.getField "safetyLevel" with
   | some (.str s) => isSafetyLevelStr s
   | _ => false) &&
  (match j.getField "reasoning" with | some (.str _) => true | _ => false) &&
  (match j.getField "identifiedAllergens" with
   | some (.arr xs) => xs.all (fun x => match x with | .str _ => true | _ => false)
   | _ => false)

/-- isAnalysisResultArray from services/utils.ts: an array whose every item
passes the per-item check. -/
def isAnalysisResultArray (j : Json) : Bool :=
  match j with
  | .arr items => items.all isValidAnalysisItem
  | _ => false

/-- Encoding of one AnalysisResult as the JSON object stored in the
`result` JSONB column (the `results as unknown as Json` cast in
addAnalysisToHistory). -/
def encodeAnalysisResult (r : AnalysisResult) : Json :=
  .obj [("itemName", .str r.itemName),
        ("safetyLevel", .str r.safetyLevel.toStr),
        ("reasoning", .str r.reasoning),
        ("identifiedAllergens", .arr (r.identifiedAllergens.map Json.str))]

/-- Encoding of an ordered AnalysisResult list as a JSON array. -/
def encodeAnalysisResults (rs : List AnalysisResult) : Json :=
  .arr (rs.map encodeAnalysisResult)

/-- Extract the string of a JSON string value. -/
def extractStr : Json → Option String
  | .str s => some s
  | _ => none

/-- Reading one stored item back as an AnalysisResult (the TS code does this
by an unchecked cast after the guard has passed; the explicit field reads
here recover exactly the cast's view of a guarded value). -/
def decodeAnalysisItem (j : Json) : AnalysisResult :=
  { itemName := match j.getField "itemName" with | some (.str s) => s | _ => ""
    safetyLevel := match j.getField "safetyLevel" with
      | some (.str s) => safetyLevelOfStr s
      | _ => .danger
    reasoning := match j.getField "reasoning" with | some (.str s) => s | _ => ""
    identifiedAllergens := match j.getField "identifiedAllergens" with
      | some (.arr xs) => xs.filterMap extractStr
      | _ => [] }

/-- Reading a stored JSON array back as an AnalysisResult list. -/
def decodeAnalysisResults (j : Json) : List AnalysisResult :=
  match j with
  | .arr items => items.map decodeAnalysisItem
  | _ => []

/-- The synthetic item substituted by getUserProfile when a history row's
stored result fails the shape check. -/
def dataErrorItemProfile : AnalysisResult :=
  { itemName := "Data Error"
    safetyLevel := .danger
    reasoning := "The result from the database was in an invalid format and could not be displayed."
    identifiedAllergens := [] }

/-- The synthetic item substituted by addAnalysisToHistory when the row
returned by the insert fails the shape check. -/
def dataErrorItemInsert : AnalysisResult :=
  { itemName := "Data Error"
    safetyLevel := .danger
    reasoning := "Could not read analysis result after saving."
    identifiedAllergens := [] }

/-- Decoding of a stored `result` field in getUserProfile: the guarded cast
when the shape check passes, the single synthetic item otherwise.  The
function is total, so decoding never throws. -/
def decodeStoredResult (j : Json) : List AnalysisResult :=
  if isAnalysisResultArray j then decodeAnalysisResults j
  else [dataErrorItemProfile]

/-- Decoding of the inserted row's `result` field in addAnalysisToHistory. -/
def decodeInsertedResult (j : Json) : List AnalysisResult :=
  if isAnalysisResultArray j then decodeAnalysisResults j
  else [dataErrorItemInsert]

/-! ## The AI gateway: handleAnalyze -/

/-- The inlined image payload of an analyze request. -/
structure ImagePayload where
  data : String
  mimeType : String
deriving DecidableEq, Repr

/-- The `data` object of an analyze request as destructured by
handleAnalyze.  Absent fields are `none`. -/
structure AnalyzeData where
  allergies : String
  preferences : Option String
  menuText : Option String
  imagePayload : Option ImagePayload
  menuUrl : Option String
deriving DecidableEq, Repr

/-- One element of the `parts` array sent to the generative model. -/
inductive Part where
  | text (s : String)
  | inlineData (data mimeType : String)
deriving DecidableEq, Repr

/-- JavaScript's `String.prototype.trim`: strip leading and trailing
whitespace (modelled on the string's character list so that it reduces). -/
def jsTrim (s : String) : String :=
  ⟨((s.data.dropWhile Char.isWhitespace).reverse.dropWhile Char.isWhitespace).reverse⟩

/-- Truthiness of `s?.trim()` for an optional string: present with a
non-whitespace character. -/
def optTrimmedNonempty : Option String → Bool
  | some s => jsTrim s != ""
  | none => false

/-- The menu-source selection and prompt-part construction of
handleAnalyze, up to (but not including) the external model call: the
URL branch wins first, then the image branch, then the text branch, else
the input error is thrown. -/
def buildAnalyzeParts (d : AnalyzeData) : Except String (List Part) :=
  if optTrimmedNonempty d.menuUrl then
    .ok [Part.text ("Analyze the menu from this URL: " ++ d.menuUrl.getD "")]
  else
    match d.imagePayload with
    | some p => .ok [Part.text "Analyze the menu in this image.",
                     Part.inlineData p.data p.mimeType]
    | none =>
      if optTrimmedNonempty d.menuText then
        .ok [Part.text ("Analyze this menu text: \n\n```\n" ++ d.menuText.getD "" ++ "\n```")]
      else
        .error "No menu content provided for analysis."

/-- handleAnalyze with the external model abstracted as an oracle from the
prompt parts to the response text.  The second component records the list
of external model calls made, so the theorems can speak about calls
happening or not. -/
def handleAnalyze (model : List Part → String) (d : AnalyzeData) :
    Except String String × List (List Part) :=
  match buildAnalyzeParts d with
  | .error e => (.error e, [])
  | .ok parts => (.ok (model parts), [parts])

/-! ## The AI gateway: handlePlaces -/

/-- The `opening_hours` object of a place details result. -/
structure OpeningHours where
  open_now : Option Bool
deriving DecidableEq, Repr

/-- The `result` object of a place details response; `photos` carries the
photo references (empty when the field is absent or empty). -/
structure PlaceDetail where
  place_id : String
  name : String
  vicinity : String
  website : Option String
  photos : List String
  rating : Option Int
  user_ratings_total : Option Nat
  opening_hours : Option OpeningHours
deriving DecidableEq, Repr

/-- A parsed place details HTTP response. -/
structure DetailsResponse where
  status : String
  result : Option PlaceDetail
deriving DecidableEq, Repr

/-- The Restaurant record returned to the client. -/
structure Restaurant where
  place_id : String
  name : String
  vicinity : String
  website : Option String
  photoUrl : Option String
  rating : Option Int
  user_ratings_total : Option Nat
  isOpen : Bool
  opening_hours : Option OpeningHours
deriving DecidableEq, Repr

/-- The photo URL constructed from the first photo reference. -/
def mkPhotoUrl (apiKey ref : String) : String :=
  "https://maps.googleapis.com/maps/api/place/photo?maxwidth=400&photoreference="
    ++ ref ++ "&key=" ++ apiKey

/-- getPlaceDetails: the per-place detail fetch.  The fetch (network plus
JSON parsing) is an oracle that may fail; the source's try/catch turns any
failure, and any non-OK or resultless response, into `null` (`none`), so no
exception escapes this helper. -/
def getPlaceDetails (apiKey : String)
    (fetchDetails : String → Except String DetailsResponse) (pid : String) :
    Option Restaurant :=
  match fetchDetails pid with
  | .error _ => none
  | .ok resp =>
    if resp.status == "OK" then
      match resp.result with
      | some place =>
        let photoUrl := match place.photos with
          | [] => none
          | ref :: _ => some (mkPhotoUrl apiKey ref)
        some { place_id := place.place_id, name := place.name,
               vicinity := place.vicinity, website := place.website,
               photoUrl := photoUrl, rating := place.rating,
               user_ratings_total := place.user_ratings_total,
               isOpen := (place.opening_hours.bind OpeningHours.open_now).getD false,
               opening_hours := place.opening_hours }
      | none => none
    else none

/-- A parsed nearby-search HTTP response; `results` is the list of returned
place ids (`none` when the field is absent). -/
structure SearchResponse where
  status : String
  results : Option (List String)
  error_message : Option String
deriving DecidableEq, Repr

/-- handlePlaces: validates configuration and coordinates (JS truthiness:
coordinate 0 counts as missing), runs the nearby search, then fans out the
per-place detail lookups over the first 12 results and drops the failed
ones. -/
def handlePlaces (apiKey : String) (latitude longitude : Int)
    (fetchSearch : Except String SearchResponse)
    (fetchDetails : String → Except String DetailsResponse) :
    Except String (List Restaurant) :=
  if apiKey == "" then
    .error "Server is not configured with a Google Maps API key."
  else if latitude == 0 || longitude == 0 then
    .error "Latitude and longitude are required."
  else
    match fetchSearch with
    | .error e => .error e
    | .ok searchData =>
      if searchData.status == "OK" && searchData.results.isSome then
        .ok (((searchData.results.getD []).take 12).filterMap
              (getPlaceDetails apiKey fetchDetails))
      else if searchData.status == "ZERO_RESULTS" then
        .ok []
      else
        .error (jsTrim ("Google Places API Error: " ++ searchData.status ++ ". "
          ++ searchData.error_message.getD ""))

/-! ## The AI gateway: handleChat -/

/-- The client-side chat message roles. -/
inductive ChatRole where
  | user
  | model
deriving DecidableEq, Repr

/-- A client-side chat message. -/
structure ChatMessage where
  role : ChatRole
  content : String
deriving DecidableEq, Repr

/-- One entry of the history given to `ai.chats.create`: the role plus a
single text part holding the message content. -/
structure GeminiContent where
  role : ChatRole
  parts : List Part
deriving DecidableEq, Repr

/-- Mapping of a client chat message to the remote history format. -/
def toGeminiContent (m : ChatMessage) : GeminiContent :=
  ⟨m.role, [Part.text m.content]⟩

/-- What handleChat submits to the remote chat API: the seed history the
conversation is created with, and the active message sent separately. -/
structure ChatSend where
  seed : List GeminiContent
  message : String
deriving DecidableEq, Repr

/-- handleChat of the gateway: rejects an empty history, then creates the
remote conversation seeded with `history.slice(0, -1)` mapped to the remote
format and sends `message` as the active turn.  The remote model's reply is
abstracted; the returned value is what was submitted. -/
def handleChat (history : List ChatMessage) (message : String) :
    Except String ChatSend :=
  if history.isEmpty then .error "Chat history is empty or invalid."
  else .ok { seed := history.dropLast.map toGeminiContent, message := message }

/-! ## The AI gateway: main request handler -/

/-- An HTTP response produced by the gateway. -/
structure HttpResponse where
  status : Nat
  body : Json

/-- The catch-clause body: `{ error: e.message || 'An internal server error
occurred.' }`. -/
def errorBody (msg : String) : Json :=
  Json.obj [("error",
    Json.str (if msg == "" then "An internal server error occurred." else msg))]

/-- The outcomes of the five operation handlers on this request's `data`
(each is `await handleX(data)`: a JSON result or a thrown message). -/
structure Handlers where
  analyze : Except String Json
  summarize : Except String Json
  alternative : Except String Json
  chat : Except String Json
  places : Except String Json

/-- The `switch (type)` dispatch of the main handler. -/
def dispatch (h : Handlers) (ty : String) : Except String Json :=
  if ty == "analyze" then h.analyze
  else if ty == "summarize" then h.summarize
  else if ty == "alternative" then h.alternative
  else if ty == "chat" then h.chat
  else if ty == "places" then h.places
  else .error ("Unknown API request type: " ++ ty)

/-- Whether a type string names one of the five operations. -/
def isKnownType (ty : String) : Bool :=
  ty == "analyze" || ty == "summarize" || ty == "alternative" ||
    ty == "chat" || ty == "places"

/-- The gateway's default export: non-POST is rejected with 405 before the
try block; inside it, `req.json()` (an oracle that may throw) yields the
`type` field, the switch dispatches, and any thrown message is caught once
and returned as a 500 with `{error}`. -/
def mainHandler (h : Handlers) (method : String) (body : Except String String) :
    HttpResponse :=
  if method != "POST" then
    { status := 405, body := Json.obj [("error", Json.str "Method not allowed")] }
  else
    match body with
    | .error e => { status := 500, body := errorBody e }
    | .ok ty =>
      match dispatch h ty with
      | .ok r => { status := 200, body := r }
      | .error e => { status := 500, body := errorBody e }

/-! ## Client data model (types.ts) and the analyze pre-check -/

/-- A `created_at` timestamp, modelled by its parsed calendar year and
month (`new Date(s).getFullYear()` / `.getMonth()`), the only components
the client code reads. -/
structure DateMY where
  year : Int
  month : Nat
deriving DecidableEq, Repr

/-- AnalysisStatus from types.ts. -/
inductive AnalysisStatus where
  | pending
  | completed
  | failed
deriving DecidableEq, Repr

/-- AnalysisType from types.ts. -/
inductive AnalysisType where
  | menu_analysis
deriving DecidableEq, Repr

/-- AnalysisHistoryEntry from types.ts: a decoded history row. -/
structure AnalysisHistoryEntry where
  id : Int
  user_id : String
  created_at : DateMY
  status : AnalysisStatus
  analysis_type : AnalysisType
  input_text : String
  result : List AnalysisResult
  allergies : String
  preferences : String
deriving DecidableEq, Repr

/-- User from types.ts, as actually populated by the data-access service
(nullable fields are Options). -/
structure User where
  id : String
  email : Option String
  is_pro : Option Bool
  username : Option String
  allergies : Option String
  preferences : Option String
  max_analyses_per_month : Option Nat
  analysisHistory : List AnalysisHistoryEntry
deriving DecidableEq, Repr

/-- Outcome of the client-side handleAnalyze pre-checks, before the
analyzeMenu call: either blocked with the error message set, or allowed to
proceed to the analysis. -/
inductive PreCheckResult where
  | blocked (message : String)
  | proceed
deriving DecidableEq, Repr

/-- The count of the user's history entries dated in the current calendar
month and year. -/
def analysesThisMonth (u : User) (now : DateMY) : Nat :=
  (u.analysisHistory.filter
    (fun h => h.created_at.month == now.month && h.created_at.year == now.year)).length

/-- The pre-check sequence at the top of the client handleAnalyze: missing
allergies, missing menu source, then for a logged-in user without a truthy
is_pro flag, the monthly-quota check against max_analyses_per_month
(blocking when the limit is null, or when this month's count has reached
it). -/
def handleAnalyzePreCheck (currentAllergies menuText : String)
    (menuImage : Option ImagePayload) (menuUrl : String)
    (currentUser : Option User) (now : DateMY) : PreCheckResult :=
  if jsTrim currentAllergies == "" then
    .blocked "Please list your allergies first."
  else if jsTrim menuText == "" && menuImage.isNone && jsTrim menuUrl == "" then
    .blocked "Please provide a menu as text, an image, a URL, or by scanning a QR code."
  else
    match currentUser with
    | some u =>
      if u.is_pro == some true then .proceed
      else
        match u.max_analyses_per_month with
        | some maxAnalyses =>
          if analysesThisMonth u now ≥ maxAnalyses then
            .blocked ("You have reached your monthly analysis limit of "
              ++ toString maxAnalyses ++ ". Upgrade to Pro for unlimited analyses.")
          else .proceed
        | none => .blocked "Unable to determine your analysis limit. Please contact support."
    | none => .proceed

/-! ## The Supabase client singleton (services/supabaseClient.ts) -/

/-- The client object `createClient(url, anonKey)` constructs, identified
by its construction arguments. -/
structure SupabaseClient where
  url : String
  anonKey : String
deriving DecidableEq, Repr

/-- The module-level `supabaseInstance` variable: `null` or the client. -/
abbrev SupaState := Option SupabaseClient

/-- initSupabase: throws (leaving the instance untouched) when url or
anonKey is falsy; otherwise constructs the client only when the instance is
still null.  Returns the call's outcome paired with the new state of the
module-level variable. -/
def initSupabase (url anonKey : String) (s : SupaState) :
    Except String Unit × SupaState :=
  if url == "" || anonKey == "" then
    (.error "Supabase URL or Key is missing for initialization.", s)
  else
    match s with
    | none => (.ok (), some ⟨url, anonKey⟩)
    | some c => (.ok (), some c)

/-- getSupabaseClient: throws while the instance is null, otherwise returns
the shared instance. -/
def getSupabaseClient (s : SupaState) : Except String SupabaseClient :=
  match s with
  | none => .error "Supabase client has not been initialized. Call initSupabase first."
  | some c => .ok c

/-- A call against the module: the only call that writes the singleton. -/
inductive SupaCall where
  | init (url anonKey : String)
deriving DecidableEq, Repr

/-- State of the module-level variable after a call sequence, starting from
the uninitialized module. -/
def runSupaCalls (cs : List SupaCall) : SupaState :=
  cs.foldl (fun s c => match c with | .init u k => (initSupabase u k s).2) none

/-- Whether a call sequence contains an initSupabase call that does not
throw (both arguments non-empty). -/
def hasSuccessfulInit (cs : List SupaCall) : Bool :=
  cs.any (fun c => match c with | .init u k => u != "" && k != "")

/-! ## Analysis-history insertion (addAnalysisToHistory) -/

/-- A raw analysis_history row as returned by the database, with the
`result` column still JSON. -/
structure DbHistoryRow where
  id : Int
  user_id : String
  created_at : DateMY
  status : AnalysisStatus
  analysis_type : AnalysisType
  input_text : String
  result : Json
  allergies : String
  preferences : String

/-- The insert payload shape of the analysis_history table. -/
structure HistoryInsert where
  user_id : String
  result : Json
  allergies : String
  preferences : String
  input_text : String
  status : AnalysisStatus
  analysis_type : AnalysisType

/-- The `historyData` payload addAnalysisToHistory builds from the current
user and analysis. -/
def mkHistoryInsert (currentUser : User) (results : List AnalysisResult)
    (allergies preferences inputText : String) : HistoryInsert :=
  { user_id := currentUser.id, result := encodeAnalysisResults results,
    allergies := allergies, preferences := preferences,
    input_text := inputText, status := .completed,
    analysis_type := .menu_analysis }

/-- The decoded AnalysisHistoryEntry built from the row returned by the
insert, with the shape-checked `result` and the after-saving fallback. -/
def mkNewHistoryEntry (row : DbHistoryRow) : AnalysisHistoryEntry :=
  { id := row.id, user_id := row.user_id, created_at := row.created_at,
    status := row.status, analysis_type := row.analysis_type,
    input_text := row.input_text, allergies := row.allergies,
    preferences := row.preferences,
    result := decodeInsertedResult row.result }

/-- addAnalysisToHistory: builds the insert payload, runs the insert
against the database (an oracle that may fail or return no row), decodes
the returned row, and returns the updated User with the new entry
prepended and any same-id entry filtered out. -/
def addAnalysisToHistory (db : HistoryInsert → Except String (Option DbHistoryRow))
    (currentUser : User) (results : List AnalysisResult)
    (allergies preferences inputText : String) : Except String User :=
  match db (mkHistoryInsert currentUser results allergies preferences inputText) with
  | .error e => .error e
  | .ok none => .error "Failed to add to history: no data returned after insert."
  | .ok (some row) =>
    .ok { currentUser with
          analysisHistory :=
            mkNewHistoryEntry row ::
              currentUser.analysisHistory.filter (fun h => h.id != row.id) }

/-! ## Profile fetch (getUserProfile) -/

/-- A PostgREST error as surfaced by supabase-js. -/
structure PgError where
  code : String
  message : String
deriving DecidableEq, Repr

/-- A `profiles` row. -/
structure ProfileRow where
  id : String
  updated_at : Option String
  username : Option String
  allergies : Option String
  preferences : Option String
  is_pro : Option Bool
  max_analyses_per_month : Option Nat
deriving DecidableEq, Repr

/-- A `profiles` insert payload (same shape as the row). -/
structure ProfileInsert where
  id : String
  updated_at : Option String
  username : Option String
  allergies : Option String
  preferences : Option String
  is_pro : Option Bool
  max_analyses_per_month : Option Nat
deriving DecidableEq, Repr

/-- The authenticated user handed to getUserProfile by supabase auth. -/
structure AuthUser where
  id : String
  email : Option String
deriving DecidableEq, Repr

/-- DEFAULT_ALLERGIES from the data-access service. -/
def DEFAULT_ALLERGIES : String := "Peanuts, Shellfish, Gluten"

/-- DEFAULT_ANALYSIS_LIMIT from the data-access service. -/
def DEFAULT_ANALYSIS_LIMIT : Nat := 5

/-- `user.email?.split('@')[0] || 'New User'`. -/
def emailUsername : Option String → String
  | none => "New User"
  | some e =>
    let p := (e.splitOn "@").headD ""
    if p == "" then "New User" else p

/-- `user.email || null`: JS string truthiness collapses the empty string
to null. -/
def jsOrNull : Option String → Option String
  | none => none
  | some e => if e == "" then none else some e

/-- The default profile payload created for a first login
(`newProfileData`). -/
def mkProfileInsert (user : AuthUser) (now : String) : ProfileInsert :=
  { id := user.id, updated_at := some now,
    username := some (emailUsername user.email),
    allergies := some DEFAULT_ALLERGIES, preferences := some "",
    is_pro := some false,
    max_analyses_per_month := some DEFAULT_ANALYSIS_LIMIT }

/-- Decoding of one raw history row into an AnalysisHistoryEntry inside
getUserProfile, with the shape-checked result substitution. -/
def dbRowToHistoryEntry (row : DbHistoryRow) : AnalysisHistoryEntry :=
  { id := row.id, user_id := row.user_id, created_at := row.created_at,
    status := row.status, analysis_type := row.analysis_type,
    input_text := row.input_text, allergies := row.allergies,
    preferences := row.preferences,
    result := decodeStoredResult row.result }

/-- getUserProfile: fetch the profile row (oracle); on the PGRST116
not-found code create a default profile (insert oracle) and return it with
an empty history; on any other fetch error throw; otherwise fetch the
history (oracle), swallowing a history error as an empty list
(`history || []`), decode each row and assemble the User. -/
def getUserProfile (profileFetch : Except PgError ProfileRow)
    (insertProfile : ProfileInsert → Except PgError ProfileRow)
    (historyFetch : Except PgError (List DbHistoryRow))
    (now : String) (user : AuthUser) : Except String User :=
  match profileFetch with
  | .error e =>
    if e.code == "PGRST116" then
      match insertProfile (mkProfileInsert user now) with
      | .error _ => .error "Could not create your profile. Please contact support."
      | .ok newProfile =>
        .ok { id := newProfile.id, email := jsOrNull user.email,
              is_pro := newProfile.is_pro, username := newProfile.username,
              allergies := newProfile.allergies,
              preferences := newProfile.preferences,
              max_analyses_per_month := newProfile.max_analyses_per_month,
              analysisHistory := [] }
    else .error "Could not retrieve user profile."
  | .ok profile =>
    let history : List DbHistoryRow :=
      match historyFetch with
      | .error _ => []
      | .ok rows => rows
    .ok { id := profile.id, email := jsOrNull user.email,
          is_pro := profile.is_pro, username := profile.username,
          allergies := profile.allergies, preferences := profile.preferences,
          max_analyses_per_month := profile.max_analyses_per_month,
          analysisHistory := history.map dbRowToHistoryEntry }

/-! ## Theorems -/

theorem extractStr_str (l : List String) :
    (l.map Json.str).filterMap extractStr = l := by
  induction l with
  | nil => rfl
  | cons a t ih => simp [List.filterMap_cons, extractStr, ih]

theorem extractStr_comp (l : List String) :
    l.filterMap (extractStr ∘ Json.str) = l := by
  induction l with
  | nil => rfl
  | cons a t ih => simp [List.filterMap_cons, extractStr, Function.comp, ih]

theorem safetyLevelOfStr_toStr (sl : SafetyLevel) :
    safetyLevelOfStr sl.toStr = sl := by
  cases sl <;> rfl

theorem decodeAnalysisItem_encode (r : AnalysisResult) :
    decodeAnalysisItem (encodeAnalysisResult r) = r := by
  cases r with
  | mk itemName safetyLevel reasoning identifiedAllergens =>
    simp [decodeAnalysisItem, encodeAnalysisResult, Json.getField, List.lookup,
      extractStr_str, extractStr_comp, safetyLevelOfStr_toStr]

theorem isValidAnalysisItem_encode (r : AnalysisResult) :
    isValidAnalysisItem (encodeAnalysisResult r) = true := by
  cases r with
  | mk itemName safetyLevel reasoning identifiedAllergens =>
    simp only [isValidAnalysisItem, encodeAnalysisResult, Json.getField, List.lookup]
    cases safetyLevel <;>
      simp [SafetyLevel.toStr, isSafetyLevelStr, List.all_map, Function.comp,
        List.all_eq_true]

theorem isAnalysisResultArray_encode (rs : List AnalysisResult) :
    isAnalysisResultArray (encodeAnalysisResults rs) = true := by
  simp only [isAnalysisResultArray, encodeAnalysisResults, List.all_eq_true]
  intro x hx
  rcases List.mem_map.mp hx with ⟨r, _, rfl⟩
  exact isValidAnalysisItem_encode r

theorem decodeAnalysisResults_encode (rs : List AnalysisResult) :
    decodeAnalysisResults (encodeAnalysisResults rs) = rs := by
  simp only [decodeAnalysisResults, encodeAnalysisResults, List.map_map]
  exact List.map_congr_left (fun r _ => decodeAnalysisItem_encode r) |>.trans (List.map_id rs)

/-- C3: decoding a stored history `result` field never throws (both decoders
are total functions); a stored value that passes isAnalysisResultArray —
in particular the encoding of any inserted list — decodes to the same
ordered AnalysisResult list that was inserted, and a stored value that
fails the check decodes to exactly the one synthetic "Data Error" item with
safety level "unsafe". -/
theorem stored_result_roundtrip :
    (∀ rs : List AnalysisResult,
        isAnalysisResultArray (encodeAnalysisResults rs) = true ∧
        decodeStoredResult (encodeAnalysisResults rs) = rs ∧
        decodeInsertedResult (encodeAnalysisResults rs) = rs) ∧
    (∀ j : Json, isAnalysisResultArray j = false →
        decodeStoredResult j = [dataErrorItemProfile] ∧
        decodeInsertedResult j = [dataErrorItemInsert] ∧
        dataErrorItemProfile.itemName = "Data Error" ∧
        dataErrorItemProfile.safetyLevel = .danger ∧
        dataErrorItemInsert.itemName = "Data Error" ∧
        dataErrorItemInsert.safetyLevel = .danger) := by
  constructor
  · intro rs
    refine ⟨isAnalysisResultArray_encode rs, ?_, ?_⟩ <;>
      simp [decodeStoredResult, decodeInsertedResult, isAnalysisResultArray_encode,
        decodeAnalysisResults_encode]
  · intro j h
    simp [decodeStoredResult, decodeInsertedResult, h, dataErrorItemProfile,
      dataErrorItemInsert]

theorem stored_result_roundtrip_witness :
    decodeStoredResult
        (encodeAnalysisResults [⟨"Pad Thai", .danger, "contains peanuts", ["peanuts"]⟩]) =
      [⟨"Pad Thai", .danger, "contains peanuts", ["peanuts"]⟩] ∧
    isAnalysisResultArray Json.null = false ∧
    decodeStoredResult Json.null = [dataErrorItemProfile] :=
  ⟨(stored_result_roundtrip.1 _).2.1, rfl,
    (stored_result_roundtrip.2 Json.null rfl).1⟩

/-- C1: an analyze request with no menu source (menuUrl absent or
whitespace-only, imagePayload absent, menuText absent or whitespace-only)
fails with the input error "No menu content provided for analysis." and
makes no external model call; with at least one non-empty source, no such
error is raised and exactly one model call is made. -/
theorem analyze_requires_menu_source (model : List Part → String) (d : AnalyzeData) :
    ((optTrimmedNonempty d.menuUrl = false ∧ d.imagePayload = none ∧
        optTrimmedNonempty d.menuText = false) →
      handleAnalyze model d = (.error "No menu content provided for analysis.", [])) ∧
    ((optTrimmedNonempty d.menuUrl = true ∨ d.imagePayload ≠ none ∨
        optTrimmedNonempty d.menuText = true) →
      ∃ parts, buildAnalyzeParts d = .ok parts ∧
        handleAnalyze model d = (.ok (model parts), [parts])) := by
  constructor
  · rintro ⟨hu, hi, ht⟩
    simp [handleAnalyze, buildAnalyzeParts, hu, hi, ht]
  · intro h
    rcases hb : buildAnalyzeParts d with e | parts
    · exfalso
      unfold buildAnalyzeParts at hb
      rcases h with hu | hi | ht
      · simp [hu] at hb
      · rcases hp : d.imagePayload with _ | p
        · exact hi hp
        · rcases hv : optTrimmedNonempty d.menuUrl <;> simp [hv, hp] at hb
      · rcases hv : optTrimmedNonempty d.menuUrl
        · rcases hp : d.imagePayload with _ | p <;> simp [hv, hp, ht] at hb
        · simp [hv] at hb
    · exact ⟨parts, rfl, by simp [handleAnalyze, hb]⟩

theorem analyze_requires_menu_source_witness :
    handleAnalyze (fun _ => "resp")
        ⟨"Peanuts", none, some "   ", none, some ""⟩ =
      (.error "No menu content provided for analysis.", []) ∧
    ∃ parts, buildAnalyzeParts ⟨"Peanuts", none, some "Pad Thai", none, none⟩ = .ok parts ∧
      handleAnalyze (fun _ => "resp") ⟨"Peanuts", none, some "Pad Thai", none, none⟩ =
        (.ok "resp", [parts]) :=
  ⟨(analyze_requires_menu_source (fun _ => "resp") _).1 (by refine ⟨?_, rfl, ?_⟩ <;> decide),
    (analyze_requires_menu_source (fun _ => "resp") _).2 (Or.inr (Or.inr (by decide)))⟩

/-- C6: source priority in handleAnalyze.  A non-blank menuUrl wins: the
constructed parts are the URL prompt alone and are unchanged if the losing
image and text sources are removed.  With no non-blank URL, a present
imagePayload wins over menuText: the parts are the image prompt plus the
inline image and are unchanged if the losing text source is removed. -/
theorem analyze_source_priority (d : AnalyzeData) :
    (optTrimmedNonempty d.menuUrl = true →
      buildAnalyzeParts d =
        .ok [Part.text ("Analyze the menu from this URL: " ++ d.menuUrl.getD "")] ∧
      buildAnalyzeParts d = buildAnalyzeParts { d with imagePayload := none, menuText := none }) ∧
    (optTrimmedNonempty d.menuUrl = false → ∀ p, d.imagePayload = some p →
      buildAnalyzeParts d =
        .ok [Part.text "Analyze the menu in this image.", Part.inlineData p.data p.mimeType] ∧
      buildAnalyzeParts d = buildAnalyzeParts { d with menuText := none }) := by
  constructor
  · intro hu
    constructor <;> simp [buildAnalyzeParts, hu]
  · intro hu p hp
    constructor <;> simp [buildAnalyzeParts, hu, hp]

theorem analyze_source_priority_witness :
    buildAnalyzeParts ⟨"Peanuts", none, some "menu text", some ⟨"imgdata", "image/png"⟩, some "https://menu.example"⟩ =
      .ok [Part.text "Analyze the menu from this URL: https://menu.example"] ∧
    buildAnalyzeParts ⟨"Peanuts", none, some "menu text", some ⟨"imgdata", "image/png"⟩, none⟩ =
      .ok [Part.text "Analyze the menu in this image.", Part.inlineData "imgdata" "image/png"] :=
  ⟨((analyze_source_priority _).1 (by decide)).1,
    ((analyze_source_priority _).2 (by decide) ⟨"imgdata", "image/png"⟩ rfl).1⟩

theorem length_filterMap_add_filter_none {α β : Type} (f : α → Option β) (l : List α) :
    (l.filterMap f).length + (l.filter (fun a => (f a).isNone)).length = l.length := by
  induction l with
  | nil => rfl
  | cons a t ih =>
    rcases h : f a with _ | b <;>
      simp [List.filterMap_cons, List.filter_cons, h] <;> omega

/-- C2: when the nearby search succeeds with status OK and a result list,
handlePlaces returns (it does not fail, so no individual detail failure
propagates), and the returned list's length is the number of initial
results capped at 12 minus the number of the first 12 place ids whose
detail lookup failed (returned `none`). -/
theorem places_partial_results (apiKey : String) (latitude longitude : Int)
    (fetchSearch : Except String SearchResponse)
    (fetchDetails : String → Except String DetailsResponse)
    (ids : List String) (em : Option String)
    (hk : apiKey ≠ "") (hlat : latitude ≠ 0) (hlng : longitude ≠ 0)
    (hs : fetchSearch = .ok ⟨"OK", some ids, em⟩) :
    handlePlaces apiKey latitude longitude fetchSearch fetchDetails =
      .ok ((ids.take 12).filterMap (getPlaceDetails apiKey fetchDetails)) ∧
    ((ids.take 12).filterMap (getPlaceDetails apiKey fetchDetails)).length =
      min ids.length 12 -
        ((ids.take 12).filter
          (fun pid => (getPlaceDetails apiKey fetchDetails pid).isNone)).length := by
  constructor
  · simp [handlePlaces, hs, hk, hlat, hlng]
  · have h := length_filterMap_add_filter_none
      (getPlaceDetails apiKey fetchDetails) (ids.take 12)
    have hlen : (ids.take 12).length = min ids.length 12 := by
      simp [List.length_take, Nat.min_comm]
    omega

theorem places_partial_results_witness :
    handlePlaces "key" 45 (-73)
        (.ok ⟨"OK", some ["a", "b", "c"], none⟩)
        (fun pid => if pid == "b" then .error "network down"
          else .ok ⟨"OK", some ⟨pid, "N", "V", none, [], none, none, none⟩⟩) =
      .ok [⟨"a", "N", "V", none, none, none, none, false, none⟩,
           ⟨"c", "N", "V", none, none, none, none, false, none⟩] ∧
    (2 : Nat) = min 3 12 - 1 :=
  ⟨by
    have h := (places_partial_results "key" 45 (-73)
      (.ok ⟨"OK", some ["a", "b", "c"], none⟩)
      (fun pid => if pid == "b" then .error "network down"
        else .ok ⟨"OK", some ⟨pid, "N", "V", none, [], none, none, none⟩⟩)
      ["a", "b", "c"] none (by decide) (by decide) (by decide) rfl).1
    rw [h]; rfl,
    by decide⟩

/-- C4: for a non-empty history whose last element is the user turn equal
to the message, handleChat seeds the remote conversation with exactly the
history minus its last element, in order, and supplies the message as the
separate active turn; the seed has one element fewer than the history, so
the last turn is not duplicated into it. -/
theorem chat_seed_strips_last_turn (history : List ChatMessage) (message : String)
    (hne : history ≠ [])
    (hlast : history.getLast hne = ⟨.user, message⟩) :
    handleChat history message =
      .ok { seed := (history.take (history.length - 1)).map toGeminiContent,
            message := message } ∧
    (history.dropLast.map toGeminiContent).length = history.length - 1 := by
  constructor
  · rw [← List.dropLast_eq_take]
    simp [handleChat, hne]
  · simp

theorem chat_seed_strips_last_turn_witness :
    handleChat
        [⟨.user, "hi"⟩, ⟨.model, "hello"⟩, ⟨.user, "what is safe?"⟩]
        "what is safe?" =
      .ok { seed := [⟨.user, [Part.text "hi"]⟩, ⟨.model, [Part.text "hello"]⟩],
            message := "what is safe?" } :=
  (chat_seed_strips_last_turn
      [⟨.user, "hi"⟩, ⟨.model, "hello"⟩, ⟨.user, "what is safe?"⟩]
      "what is safe?" (by decide) rfl).1

/-- C5: per request exactly one of three outcomes occurs, discriminated by
the status code: 405 with body `error: Method not allowed` exactly when the
method is not POST; 200 with the handler's result exactly when the method
is POST, the body parses, and the dispatched handler succeeds (an unknown
type makes the dispatch fail with the Unknown-API-request-type message);
500 with `{error}` carrying the thrown message in every remaining case. -/
theorem gateway_dispatch_trichotomy (h : Handlers) (method : String)
    (body : Except String String) :
    ((mainHandler h method body).status = 405 ∨
     (mainHandler h method body).status = 200 ∨
     (mainHandler h method body).status = 500) ∧
    ((mainHandler h method body).status = 405 ↔ method ≠ "POST") ∧
    ((mainHandler h method body).status = 405 →
      (mainHandler h method body).body = Json.obj [("error", Json.str "Method not allowed")]) ∧
    ((mainHandler h method body).status = 200 ↔
      method = "POST" ∧ ∃ ty r, body = .ok ty ∧ dispatch h ty = .ok r) ∧
    (∀ ty r, method = "POST" → body = .ok ty → dispatch h ty = .ok r →
      mainHandler h method body = ⟨200, r⟩) ∧
    ((mainHandler h method body).status = 500 ↔
      method = "POST" ∧
        ((∃ e, body = .error e) ∨ ∃ ty e, body = .ok ty ∧ dispatch h ty = .error e)) ∧
    (∀ e, method = "POST" → body = .error e →
      mainHandler h method body = ⟨500, errorBody e⟩) ∧
    (∀ ty e, method = "POST" → body = .ok ty → dispatch h ty = .error e →
      mainHandler h method body = ⟨500, errorBody e⟩) ∧
    (∀ ty, isKnownType ty = false →
      dispatch h ty = .error ("Unknown API request type: " ++ ty)) := by
  rcases hm : method == "POST" with _ | _
  · have hm' : method ≠ "POST" := by
      intro heq; rw [heq] at hm; simp at hm
    refine ⟨?_, ?_, ?_, ?_, ?_, ?_, ?_, ?_, ?_⟩ <;>
      simp_all [mainHandler, dispatch, isKnownType]
  · have hm' : method = "POST" := by
      simpa using hm
    subst hm'
    rcases body with e | ty
    · refine ⟨?_, ?_, ?_, ?_, ?_, ?_, ?_, ?_, ?_⟩ <;>
        simp_all [mainHandler, dispatch, isKnownType]
    · rcases hd : dispatch h ty with e | r <;>
        refine ⟨?_, ?_, ?_, ?_, ?_, ?_, ?_, ?_, ?_⟩ <;>
        simp_all [mainHandler, dispatch, isKnownType]

theorem gateway_dispatch_trichotomy_witness :
    mainHandler ⟨.ok (Json.str "a"), .ok Json.null, .ok Json.null, .ok Json.null, .ok Json.null⟩
        "GET" (.ok "analyze") =
      { status := 405, body := Json.obj [("error", Json.str "Method not allowed")] } ∧
    mainHandler ⟨.ok (Json.str "a"), .ok Json.null, .ok Json.null, .ok Json.null, .ok Json.null⟩
        "POST" (.ok "analyze") = ⟨200, Json.str "a"⟩ ∧
    mainHandler ⟨.ok (Json.str "a"), .ok Json.null, .ok Json.null, .ok Json.null, .ok Json.null⟩
        "POST" (.ok "bogus") = ⟨500, errorBody "Unknown API request type: bogus"⟩ := by
  have h405 := (gateway_dispatch_trichotomy
    ⟨.ok (Json.str "a"), .ok Json.null, .ok Json.null, .ok Json.null, .ok Json.null⟩
    "GET" (.ok "analyze")).2.2.1
  have h200 := (gateway_dispatch_trichotomy
    ⟨.ok (Json.str "a"), .ok Json.null, .ok Json.null, .ok Json.null, .ok Json.null⟩
    "POST" (.ok "analyze")).2.2.2.2.1 "analyze" (Json.str "a") rfl rfl rfl
  have h500 := (gateway_dispatch_trichotomy
    ⟨.ok (Json.str "a"), .ok Json.null, .ok Json.null, .ok Json.null, .ok Json.null⟩
    "POST" (.ok "bogus")).2.2.2.2.2.2.2.1 "bogus" "Unknown API request type: bogus"
    rfl rfl rfl
  refine ⟨?_, h200, h500⟩
  have : (mainHandler
      ⟨.ok (Json.str "a"), .ok Json.null, .ok Json.null, .ok Json.null, .ok Json.null⟩
      "GET" (.ok "analyze")).status = 405 := rfl
  have hb := h405 this
  cases hm : mainHandler
      ⟨.ok (Json.str "a"), .ok Json.null, .ok Json.null, .ok Json.null, .ok Json.null⟩
      "GET" (.ok "analyze")
  simp_all

/-- C7: a logged-in non-Pro user with max_analyses_per_month = 5 whose
history already holds 5 entries dated in the current month and year is
blocked by the client pre-check with the limit-exceeded message before
analyzeMenu is reached; with fewer than 5 such entries the quota pre-check
does not block. -/
theorem quota_precheck_blocks_at_limit (currentAllergies menuText : String)
    (menuImage : Option ImagePayload) (menuUrl : String) (u : User) (now : DateMY)
    (hA : jsTrim currentAllergies ≠ "")
    (hMenu : (jsTrim menuText == "" && menuImage.isNone && jsTrim menuUrl == "") = false)
    (hPro : u.is_pro ≠ some true)
    (hMax : u.max_analyses_per_month = some 5) :
    (analysesThisMonth u now = 5 →
      handleAnalyzePreCheck currentAllergies menuText menuImage menuUrl (some u) now =
        .blocked "You have reached your monthly analysis limit of 5. Upgrade to Pro for unlimited analyses.") ∧
    (analysesThisMonth u now < 5 →
      handleAnalyzePreCheck currentAllergies menuText menuImage menuUrl (some u) now =
        .proceed) := by
  have hPro' : (u.is_pro == some true) = false := by
    rcases h : u.is_pro with _ | b
    · rfl
    · cases b
      · rfl
      · exact absurd h hPro
  constructor
  · intro hcnt
    have : toString (5 : Nat) = "5" := rfl
    simp [handleAnalyzePreCheck, hA, hMenu, hPro', hMax, hcnt, this]
  · intro hcnt
    simp [handleAnalyzePreCheck, hA, hMenu, hPro', hMax, Nat.not_le.mpr hcnt]

theorem quota_precheck_blocks_at_limit_witness :
    (handleAnalyzePreCheck "Peanuts" "Pad Thai" none "" (some
        { id := "u1", email := some "a@b.c", is_pro := some false,
          username := some "a", allergies := some "Peanuts", preferences := none,
          max_analyses_per_month := some 5,
          analysisHistory :=
            [⟨1, "u1", ⟨2026, 9⟩, .completed, .menu_analysis, "m", [], "Peanuts", ""⟩,
             ⟨2, "u1", ⟨2026, 9⟩, .completed, .menu_analysis, "m", [], "Peanuts", ""⟩,
             ⟨3, "u1", ⟨2026, 9⟩, .completed, .menu_analysis, "m", [], "Peanuts", ""⟩,
             ⟨4, "u1", ⟨2026, 9⟩, .completed, .menu_analysis, "m", [], "Peanuts", ""⟩,
             ⟨5, "u1", ⟨2026, 9⟩, .completed, .menu_analysis, "m", [], "Peanuts", ""⟩] })
        ⟨2026, 9⟩ =
      .blocked "You have reached your monthly analysis limit of 5. Upgrade to Pro for unlimited analyses.") ∧
    (handleAnalyzePreCheck "Peanuts" "Pad Thai" none "" (some
        { id := "u1", email := some "a@b.c", is_pro := some false,
          username := some "a", allergies := some "Peanuts", preferences := none,
          max_analyses_per_month := some 5,
          analysisHistory :=
            [⟨1, "u1", ⟨2026, 8⟩, .completed, .menu_analysis, "m", [], "Peanuts", ""⟩,
             ⟨2, "u1", ⟨2026, 9⟩, .completed, .menu_analysis, "m", [], "Peanuts", ""⟩] })
        ⟨2026, 9⟩ = .proceed) :=
  ⟨(quota_precheck_blocks_at_limit "Peanuts" "Pad Thai" none "" _ ⟨2026, 9⟩
      (by decide) (by decide) (by decide) rfl).1 (by decide),
   (quota_precheck_blocks_at_limit "Peanuts" "Pad Thai" none "" _ ⟨2026, 9⟩
      (by decide) (by decide) (by decide) rfl).2 (by decide)⟩

theorem initSupabase_preserves_some (u k : String) (c : SupabaseClient) :
    (initSupabase u k (some c)).2 = some c := by
  unfold initSupabase
  rcases h : (u == "" || k == "") <;> simp [h]

theorem runSupaCalls_from_some (cs : List SupaCall) (c : SupabaseClient) :
    cs.foldl (fun s call => match call with | .init u k => (initSupabase u k s).2)
      (some c) = some c := by
  induction cs with
  | nil => rfl
  | cons call t ih =>
    cases call with
    | init u k => simpa [List.foldl_cons, initSupabase_preserves_some] using ih

theorem initSupabase_state_fail (u k : String) (s : SupaState) (h : u = "" ∨ k = "") :
    (initSupabase u k s).2 = s := by
  rcases h with h | h <;> simp [initSupabase, h]

theorem runSupaCalls_none_iff (cs : List SupaCall) :
    runSupaCalls cs = none ↔ hasSuccessfulInit cs = false := by
  induction cs with
  | nil => simp [runSupaCalls, hasSuccessfulInit]
  | cons call t ih =>
    cases call with
    | init u k =>
      by_cases hu : u = ""
      · have hstep : runSupaCalls ((SupaCall.init u k) :: t) = runSupaCalls t := by
          simp [runSupaCalls, List.foldl_cons, initSupabase_state_fail u k none (Or.inl hu)]
        have hsucc : hasSuccessfulInit ((SupaCall.init u k) :: t) = hasSuccessfulInit t := by
          simp [hasSuccessfulInit, hu]
        rw [hstep, hsucc]; exact ih
      · by_cases hk : k = ""
        · have hstep : runSupaCalls ((SupaCall.init u k) :: t) = runSupaCalls t := by
            simp [runSupaCalls, List.foldl_cons, initSupabase_state_fail u k none (Or.inr hk)]
          have hsucc : hasSuccessfulInit ((SupaCall.init u k) :: t) = hasSuccessfulInit t := by
            simp [hasSuccessfulInit, hk]
          rw [hstep, hsucc]; exact ih
        · constructor
          · intro hrun
            have hstep : runSupaCalls ((SupaCall.init u k) :: t) =
                t.foldl (fun s c => match c with | .init u k => (initSupabase u k s).2)
                  (some ⟨u, k⟩) := by
              simp [runSupaCalls, List.foldl_cons, initSupabase, hu, hk]
            rw [hstep, runSupaCalls_from_some] at hrun
            exact absurd hrun (by simp)
          · intro hs
            exfalso
            simp [hasSuccessfulInit, hu, hk] at hs

/-- C8: the singleton invariant under every call sequence.  (1)
getSupabaseClient throws exactly when no successful initSupabase call has
occurred; (2) initSupabase with an empty url or anonKey throws and leaves
the instance unchanged; (3) once the instance is set, any later
initSupabase call — with any arguments — leaves it unchanged, so every
later getSupabaseClient observes the same client. -/
theorem supabase_singleton_invariant (cs : List SupaCall) :
    ((∃ m, getSupabaseClient (runSupaCalls cs) = .error m) ↔
      hasSuccessfulInit cs = false) ∧
    (∀ u k s, (u = "" ∨ k = "") →
      initSupabase u k s =
        (.error "Supabase URL or Key is missing for initialization.", s)) ∧
    (∀ c, runSupaCalls cs = some c →
      ∀ cs', runSupaCalls (cs ++ cs') = some c ∧
        getSupabaseClient (runSupaCalls (cs ++ cs')) = .ok c) := by
  refine ⟨?_, ?_, ?_⟩
  · constructor
    · rintro ⟨m, hm⟩
      rcases hrun : runSupaCalls cs with _ | c
      · exact (runSupaCalls_none_iff cs).mp hrun
      · rw [hrun] at hm; exact absurd hm (by simp [getSupabaseClient])
    · intro hs
      exact ⟨_, by rw [(runSupaCalls_none_iff cs).mpr hs]; rfl⟩
  · rintro u k s (h | h) <;> simp [initSupabase, h]
  · intro c hc cs'
    have : runSupaCalls (cs ++ cs') =
        cs'.foldl (fun s call => match call with | .init u k => (initSupabase u k s).2)
          (runSupaCalls cs) := by
      simp [runSupaCalls, List.foldl_append]
    rw [this, hc, runSupaCalls_from_some]
    exact ⟨rfl, rfl⟩

theorem supabase_singleton_invariant_witness :
    getSupabaseClient (runSupaCalls [.init "" "k"]) =
      .error "Supabase client has not been initialized. Call initSupabase first." ∧
    initSupabase "" "k" (some ⟨"u", "k"⟩) =
      (.error "Supabase URL or Key is missing for initialization.", some ⟨"u", "k"⟩) ∧
    runSupaCalls ([.init "u1" "k1"] ++ [.init "u2" "k2"]) = some ⟨"u1", "k1"⟩ := by
  refine ⟨?_, ?_, ?_⟩
  · have h := ((supabase_singleton_invariant [.init "" "k"]).1).mpr (by decide)
    rcases h with ⟨m, hm⟩
    rw [hm]
    have : runSupaCalls [SupaCall.init "" "k"] = none := by decide
    simp only [getSupabaseClient, this] at hm
    cases hm
    rfl
  · exact (supabase_singleton_invariant []).2.1 "" "k" (some ⟨"u", "k"⟩) (Or.inl rfl)
  · exact ((supabase_singleton_invariant [.init "u1" "k1"]).2.2 ⟨"u1", "k1"⟩ (by decide)
      [.init "u2" "k2"]).1

/-- C9: every successful addAnalysisToHistory returns a User equal to the
input on every field other than analysisHistory, whose analysisHistory is
the decoded new entry prepended to the previous history with any same-id
entry removed: the new id occurs exactly once, and distinct history ids
stay distinct. -/
theorem add_history_frame (db : HistoryInsert → Except String (Option DbHistoryRow))
    (currentUser : User) (results : List AnalysisResult)
    (allergies preferences inputText : String) (u' : User)
    (h : addAnalysisToHistory db currentUser results allergies preferences inputText =
      .ok u') :
    u'.id = currentUser.id ∧ u'.email = currentUser.email ∧
    u'.username = currentUser.username ∧ u'.is_pro = currentUser.is_pro ∧
    u'.allergies = currentUser.allergies ∧ u'.preferences = currentUser.preferences ∧
    u'.max_analyses_per_month = currentUser.max_analyses_per_month ∧
    ∃ row,
      db (mkHistoryInsert currentUser results allergies preferences inputText) =
        .ok (some row) ∧
      u'.analysisHistory =
        mkNewHistoryEntry row ::
          currentUser.analysisHistory.filter (fun e => e.id != row.id) ∧
      u'.analysisHistory.countP (fun e => e.id == row.id) = 1 ∧
      ((currentUser.analysisHistory.map AnalysisHistoryEntry.id).Nodup →
        (u'.analysisHistory.map AnalysisHistoryEntry.id).Nodup) := by
  unfold addAnalysisToHistory at h
  rcases hdb : db (mkHistoryInsert currentUser results allergies preferences inputText)
    with e | orow
  · rw [hdb] at h; cases h
  · rcases orow with _ | row
    · rw [hdb] at h; cases h
    · rw [hdb] at h
      obtain rfl : _ = u' := Except.ok.inj h
      refine ⟨rfl, rfl, rfl, rfl, rfl, rfl, rfl, row, rfl, rfl, ?_, ?_⟩
      · simp only [List.countP_cons]
        have hid : (mkNewHistoryEntry row).id = row.id := rfl
        have hzero :
            (currentUser.analysisHistory.filter (fun e => e.id != row.id)).countP
              (fun e => e.id == row.id) = 0 := by
          rw [List.countP_eq_zero]
          intro e he
          have := List.of_mem_filter he
          simpa using this
        simp [hzero, hid]
      · intro hnd
        simp only [List.map_cons, List.nodup_cons]
        constructor
        · intro hmem
          rcases List.mem_map.mp hmem with ⟨e, he, heq⟩
          have hne := List.of_mem_filter he
          rw [heq] at hne
          simpa [mkNewHistoryEntry] using hne
        · have hsub : (currentUser.analysisHistory.filter
              (fun e => e.id != row.id)).Sublist currentUser.analysisHistory :=
            List.filter_sublist _
          exact hnd.sublist (hsub.map AnalysisHistoryEntry.id)

theorem add_history_frame_witness :
    addAnalysisToHistory
        (fun ins => .ok (some ⟨7, ins.user_id, ⟨2026, 9⟩, ins.status,
          ins.analysis_type, ins.input_text, ins.result, ins.allergies,
          ins.preferences⟩))
        { id := "u1", email := some "a@b.c", is_pro := some false,
          username := some "a", allergies := some "Peanuts", preferences := none,
          max_analyses_per_month := some 5,
          analysisHistory :=
            [⟨7, "u1", ⟨2026, 8⟩, .completed, .menu_analysis, "old", [], "Peanuts", ""⟩,
             ⟨3, "u1", ⟨2026, 8⟩, .completed, .menu_analysis, "old", [], "Peanuts", ""⟩] }
        [⟨"Pad Thai", .danger, "peanuts", ["peanuts"]⟩] "Peanuts" "" "menu" =
      .ok { id := "u1", email := some "a@b.c", is_pro := some false,
            username := some "a", allergies := some "Peanuts", preferences := none,
            max_analyses_per_month := some 5,
            analysisHistory :=
              [⟨7, "u1", ⟨2026, 9⟩, .completed, .menu_analysis, "menu",
                 [⟨"Pad Thai", .danger, "peanuts", ["peanuts"]⟩], "Peanuts", ""⟩,
               ⟨3, "u1", ⟨2026, 8⟩, .completed, .menu_analysis, "old", [], "Peanuts", ""⟩] } ∧
    (some "a@b.c" : Option String) = some "a@b.c" := by
  have hEq : addAnalysisToHistory
      (fun ins => .ok (some ⟨7, ins.user_id, ⟨2026, 9⟩, ins.status,
        ins.analysis_type, ins.input_text, ins.result, ins.allergies,
        ins.preferences⟩))
      { id := "u1", email := some "a@b.c", is_pro := some false,
        username := some "a", allergies := some "Peanuts", preferences := none,
        max_analyses_per_month := some 5,
        analysisHistory :=
          [⟨7, "u1", ⟨2026, 8⟩, .completed, .menu_analysis, "old", [], "Peanuts", ""⟩,
           ⟨3, "u1", ⟨2026, 8⟩, .completed, .menu_analysis, "old", [], "Peanuts", ""⟩] }
      [⟨"Pad Thai", .danger, "peanuts", ["peanuts"]⟩] "Peanuts" "" "menu" =
      .ok { id := "u1", email := some "a@b.c", is_pro := some false,
            username := some "a", allergies := some "Peanuts", preferences := none,
            max_analyses_per_month := some 5,
            analysisHistory :=
              [⟨7, "u1", ⟨2026, 9⟩, .completed, .menu_analysis, "menu",
                 [⟨"Pad Thai", .danger, "peanuts", ["peanuts"]⟩], "Peanuts", ""⟩,
               ⟨3, "u1", ⟨2026, 8⟩, .completed, .menu_analysis, "old", [], "Peanuts", ""⟩] } := by
    rfl
  refine ⟨hEq, ?_⟩
  have hframe := (add_history_frame _ _ _ _ _ _ _ hEq).2.1
  simpa using hframe

/-- C10: in executions where the profile row exists (the fetch does not
report the PGRST116 not-found code), a failing analysis_history fetch is
swallowed: getUserProfile still succeeds and returns the User with every
profile field populated from the profile row and an empty analysisHistory;
and getUserProfile throws exactly when the profile fetch itself errored. -/
theorem profile_fetch_swallows_history_error
    (profileFetch : Except PgError ProfileRow)
    (insertProfile : ProfileInsert → Except PgError ProfileRow)
    (historyFetch : Except PgError (List DbHistoryRow))
    (now : String) (user : AuthUser)
    (hExists : ∀ e, profileFetch = .error e → e.code ≠ "PGRST116") :
    (∀ profile, profileFetch = .ok profile → ∀ e, historyFetch = .error e →
      getUserProfile profileFetch insertProfile historyFetch now user =
        .ok { id := profile.id, email := jsOrNull user.email,
              is_pro := profile.is_pro, username := profile.username,
              allergies := profile.allergies, preferences := profile.preferences,
              max_analyses_per_month := profile.max_analyses_per_month,
              analysisHistory := [] }) ∧
    ((∃ m, getUserProfile profileFetch insertProfile historyFetch now user =
        .error m) ↔ ∃ e, profileFetch = .error e) := by
  constructor
  · rintro profile rfl e rfl
    simp [getUserProfile]
  · constructor
    · rintro ⟨m, hm⟩
      rcases hp : profileFetch with e | profile
      · exact ⟨e, rfl⟩
      · rw [hp] at hm
        simp [getUserProfile] at hm
    · rintro ⟨e, rfl⟩
      have hcode : (e.code == "PGRST116") = false := by
        have := hExists e rfl
        simpa using this
      exact ⟨"Could not retrieve user profile.", by simp [getUserProfile, hcode]⟩

theorem profile_fetch_swallows_history_error_witness :
    getUserProfile
        (.ok ⟨"u1", none, some "alice", some "Peanuts", some "", some false, some 5⟩)
        (fun _ => .error ⟨"XX", "insert refused"⟩)
        (.error ⟨"57014", "history query timed out"⟩)
        "2026-10-11" ⟨"u1", some "alice@example.com"⟩ =
      .ok { id := "u1", email := some "alice@example.com", is_pro := some false,
            username := some "alice", allergies := some "Peanuts",
            preferences := some "", max_analyses_per_month := some 5,
            analysisHistory := [] } :=
  (profile_fetch_swallows_history_error
      (.ok ⟨"u1", none, some "alice", some "Peanuts", some "", some false, some 5⟩)
      (fun _ => .error ⟨"XX", "insert refused"⟩)
      (.error ⟨"57014", "history query timed out"⟩)
      "2026-10-11" ⟨"u1", some "alice@example.com"⟩
      (fun _ he => Except.noConfusion he)).1
    ⟨"u1", none, some "alice", some "Peanuts", some "", some false, some 5⟩ rfl
    ⟨"57014", "history query timed out"⟩ rfl

end MenuGuard
